import Mathlib

/-!
Verification of the `no_clock` timing library (`src/include/no_clock.h`,
`src/include/no_clock_if.h`).

Simulated time (`sc_core::sc_time`) is embedded as an exact rational number;
the C++ `int(...)` / `(unsigned long int)(...)` casts of floating values are
embedded as truncation toward zero.  The current simulated time
(`sc_core::sc_time_stamp()`) is passed explicitly as a `now` argument, and the
`sc_event` members (opaque scheduler handles) are not part of the state model.
-/

namespace NoClock

/-- C++ `int(...)` cast of a real value: truncation toward zero. -/
def cppTrunc (q : ℚ) : ℤ := if 0 ≤ q then ⌊q⌋ else ⌈q⌉

/-- `operator % ( const sc_time& lhs, const sc_time& rhs )` from no_clock.h
lines 87-93: `rslt = lhd - rhd*int(lhd/rhd)`. -/
def scTimeMod (lhs rhs : ℚ) : ℚ :=
  lhs - rhs * (cppTrunc (lhs / rhs) : ℚ)

/-- Severity of a SystemC report. -/
inductive ScSeverity
| warning
| error
deriving DecidableEq

/-- A report emitted through `sc_report_handler::report` / `SC_REPORT_ERROR`.
The `file`/`line` arguments of the C++ call only decorate the diagnostic and
are not modelled. -/
structure ScReport where
  severity : ScSeverity
  id : String
  msg : String
deriving DecidableEq

/-- `sc_core_time_diff` from no_clock.h lines 104-129, default policy
(`INVERT_NEGATIVE` not defined): returns `lhs - rhs` when `lhs >= rhs`;
otherwise reports a warning and returns `SC_ZERO_TIME`.  The second component
is the report emitted, if any. -/
def sc_core_time_diff (lhs rhs : ℚ) : ℚ × Option ScReport :=
  if rhs ≤ lhs then (lhs - rhs, none)
  else (0, some ⟨ScSeverity.warning, "time_diff",
    "Negative time calculation returning SC_ZERO_TIME"⟩)

/-- `delay(tPERIOD, tOFFSET, tSHIFT)` from no_clock.h lines 307-317, with the
current simulated time passed as `now` (the local `tREMAINDER` is inlined). -/
def delay (now tPERIOD tOFFSET tSHIFT : ℚ) : ℚ :=
  if scTimeMod (now + tSHIFT) tPERIOD = tOFFSET then 0
  else if scTimeMod (now + tSHIFT) tPERIOD < tOFFSET then
    tOFFSET - scTimeMod (now + tSHIFT) tPERIOD
  else tPERIOD + tOFFSET - scTimeMod (now + tSHIFT) tPERIOD

/-- `clocks(tPERIOD, tZERO, tSHIFT)` from no_clock.h lines 321-329: the
`(unsigned long int)` cast of the `sc_time` ratio, i.e. truncation toward zero
of the exact ratio. -/
def clocks (now tPERIOD tZERO tSHIFT : ℚ) : ℤ :=
  cppTrunc ((now + tSHIFT - tZERO) / tPERIOD)

/-- The data members of class `no_clock` (no_clock.h lines 266-287).  The
`m_get_time` callback is modelled by the explicit `now` arguments, and the
five `sc_event` members are scheduler handles carrying no model state. -/
structure no_clock where
  m_clock_name : String
  m_tPERIOD : ℚ
  m_duty : ℚ
  m_tOFFSET : ℚ
  m_tPOSEDGE : ℚ
  m_tNEGEDGE : ℚ
  m_posedge : Bool
  m_tSAMPLE : ℚ
  m_tSETEDGE : ℚ
  m_frequency_set : ℚ
  m_freq_count : ℕ
  m_base_count : ℕ
  m_tSHIFT : ℚ
deriving DecidableEq

namespace no_clock

/-- `no_clock::set_time_shift` (no_clock.h line 304): `m_tSHIFT = tSHIFT;`. -/
def set_time_shift (c : no_clock) (tSHIFT : ℚ) : no_clock :=
  { c with m_tSHIFT := tSHIFT }

/-- `no_clock::cycles` (no_clock.h lines 342-345):
`m_base_count + clocks(m_tPERIOD, m_frequency_set, m_tSHIFT)`. -/
def cycles (c : no_clock) (now : ℚ) : ℤ :=
  (c.m_base_count : ℤ) + clocks now c.m_tPERIOD c.m_frequency_set c.m_tSHIFT

/-- `no_clock::until_posedge` (no_clock.h lines 348-351). -/
def until_posedge (c : no_clock) (now : ℚ) (cyc : ℕ) : ℚ :=
  (cyc : ℚ) * c.m_tPERIOD + delay now c.m_tPERIOD c.m_tPOSEDGE c.m_tSHIFT

/-- `no_clock::until_negedge` (no_clock.h lines 353-356). -/
def until_negedge (c : no_clock) (now : ℚ) (cyc : ℕ) : ℚ :=
  (cyc : ℚ) * c.m_tPERIOD + delay now c.m_tPERIOD c.m_tNEGEDGE c.m_tSHIFT

/-- `no_clock::read` (no_clock.h lines 501-504):
`until_negedge() < until_posedge()` (both at the default argument 0). -/
def read (c : no_clock) (now : ℚ) : Bool :=
  decide (c.until_negedge now 0 < c.until_posedge now 0)

/-- `no_clock::until_anyedge` (no_clock.h lines 358-361). -/
def until_anyedge (c : no_clock) (now : ℚ) (cyc : ℕ) : ℚ :=
  (cyc : ℚ) * c.m_tPERIOD +
    (if c.read now then c.until_negedge now 0 else c.until_posedge now 0)

/-- `no_clock::until_sample` (no_clock.h lines 363-366). -/
def until_sample (c : no_clock) (now : ℚ) (cyc : ℕ) : ℚ :=
  (cyc : ℚ) * c.m_tPERIOD + delay now c.m_tPERIOD c.m_tSAMPLE c.m_tSHIFT

/-- `no_clock::until_setedge` (no_clock.h lines 368-371). -/
def until_setedge (c : no_clock) (now : ℚ) (cyc : ℕ) : ℚ :=
  (cyc : ℚ) * c.m_tPERIOD + delay now c.m_tPERIOD c.m_tSETEDGE c.m_tSHIFT

/-- `no_clock::next_posedge` (no_clock.h lines 374-378). -/
def next_posedge (c : no_clock) (now : ℚ) (cyc : ℕ) : ℚ :=
  ((cyc : ℚ) + (if delay now c.m_tPERIOD c.m_tPOSEDGE c.m_tSHIFT = 0 then 1 else 0))
      * c.m_tPERIOD
    + delay now c.m_tPERIOD c.m_tPOSEDGE c.m_tSHIFT

/-- `no_clock::next_negedge` (no_clock.h lines 380-384). -/
def next_negedge (c : no_clock) (now : ℚ) (cyc : ℕ) : ℚ :=
  ((cyc : ℚ) + (if delay now c.m_tPERIOD c.m_tNEGEDGE c.m_tSHIFT = 0 then 1 else 0))
      * c.m_tPERIOD
    + delay now c.m_tPERIOD c.m_tNEGEDGE c.m_tSHIFT

/-- `no_clock::next_anyedge` (no_clock.h lines 386-389). -/
def next_anyedge (c : no_clock) (now : ℚ) (cyc : ℕ) : ℚ :=
  (cyc : ℚ) * c.m_tPERIOD +
    (if c.read now then c.next_negedge now 0 else c.next_posedge now 0)

/-- `no_clock::next_sample` (no_clock.h lines 391-395). -/
def next_sample (c : no_clock) (now : ℚ) (cyc : ℕ) : ℚ :=
  ((cyc : ℚ) + (if delay now c.m_tPERIOD c.m_tSAMPLE c.m_tSHIFT = 0 then 1 else 0))
      * c.m_tPERIOD
    + delay now c.m_tPERIOD c.m_tSAMPLE c.m_tSHIFT

/-- `no_clock::next_setedge` (no_clock.h lines 397-401). -/
def next_setedge (c : no_clock) (now : ℚ) (cyc : ℕ) : ℚ :=
  ((cyc : ℚ) + (if delay now c.m_tPERIOD c.m_tSETEDGE c.m_tSHIFT = 0 then 1 else 0))
      * c.m_tPERIOD
    + delay now c.m_tPERIOD c.m_tSETEDGE c.m_tSHIFT

/-- `no_clock::at_posedge_time` (no_clock.h lines 435-438). -/
def at_posedge_time (c : no_clock) (now : ℚ) : Bool :=
  decide (c.until_posedge now 0 = 0)

/-- `no_clock::at_negedge_time` (no_clock.h lines 440-443). -/
def at_negedge_time (c : no_clock) (now : ℚ) : Bool :=
  decide (c.until_negedge now 0 = 0)

/-- `no_clock::at_anyedge_time` (no_clock.h lines 445-448). -/
def at_anyedge_time (c : no_clock) (now : ℚ) : Bool :=
  decide (c.until_anyedge now 0 = 0)

/-- `no_clock::at_sample_time` (no_clock.h lines 450-453). -/
def at_sample_time (c : no_clock) (now : ℚ) : Bool :=
  decide (c.until_sample now 0 = 0)

/-- `no_clock::at_setedge_time` exactly as written in the source (no_clock.h
lines 455-458): note the body tests `until_sample(0)`, not `until_setedge(0)`. -/
def at_setedge_time (c : no_clock) (now : ℚ) : Bool :=
  decide (c.until_sample now 0 = 0)

/-- `no_clock::write` (no_clock.h line 260):
`{ SC_REPORT_ERROR("/no_clock","write() not allowed on clock"); }` — emits an
error report and performs no mutation of the object. -/
def write (c : no_clock) (v : Bool) : no_clock × ScReport :=
  (c, ⟨ScSeverity.error, "/no_clock", "write() not allowed on clock"⟩)

end no_clock

/-- Modelled from the spec: the derivation of the two edge offsets is not
under src/ (the constructors and most mutators are only declared there).  Per
the spec: high-time = dutyCycle * period; if the first edge is positive, the
positive-edge offset is `offset` and the negative-edge offset is
`(offset + high-time) mod period`, otherwise swapped; both normalized into
[0, period). -/
def calc_edges (tPERIOD duty tOFFSET : ℚ) (positive : Bool) : ℚ × ℚ :=
  if positive then (tOFFSET, scTimeMod (tOFFSET + duty * tPERIOD) tPERIOD)
  else (scTimeMod (tOFFSET + duty * tPERIOD) tPERIOD, tOFFSET)

/-- The configuration arguments of the `no_clock` constructor and of
`no_clock::global` (period, duty, offset, sample, setedge, positive). -/
structure ClockParams where
  tPERIOD : ℚ
  duty : ℚ
  tOFFSET : ℚ
  tSAMPLE : ℚ
  tSETEDGE : ℚ
  positive : Bool
deriving DecidableEq

/-- Modelled from the spec: the `no_clock` constructor is only declared under
src/.  Per the spec it stores the configuration, derives the two edge offsets,
and initializes the change-tracking state (lastFrequencyChangeTime = zero
time, both counters 0) and the temporal shift to zero. -/
def mkClock (name : String) (p : ClockParams) : no_clock :=
  { m_clock_name := name
    m_tPERIOD := p.tPERIOD
    m_duty := p.duty
    m_tOFFSET := p.tOFFSET
    m_tPOSEDGE := (calc_edges p.tPERIOD p.duty p.tOFFSET p.positive).1
    m_tNEGEDGE := (calc_edges p.tPERIOD p.duty p.tOFFSET p.positive).2
    m_posedge := p.positive
    m_tSAMPLE := p.tSAMPLE
    m_tSETEDGE := p.tSETEDGE
    m_frequency_set := 0
    m_freq_count := 0
    m_base_count := 0
    m_tSHIFT := 0 }

namespace no_clock

/-- Modelled from the spec: the bookkeeping shared by the configuration
mutators whose definitions are not under src/ (set_frequency,
set_period_time, set_offset_time, set_duty_cycle, set_sample_time,
set_setedge_time are only declared there).  Per the spec each records the
current elapsed cycle count into the base count, stamps the change time, and
increments the frequency-change count, before the new parameter is applied. -/
def mutator_snapshot (c : no_clock) (now : ℚ) : no_clock :=
  { c with
    m_base_count := (c.cycles now).toNat
    m_frequency_set := now
    m_freq_count := c.m_freq_count + 1 }

/-- Recompute the cached edge offsets from the current configuration
(`calc_edges` is itself modelled from the spec). -/
def update_edges (c : no_clock) : no_clock :=
  { c with
    m_tPOSEDGE := (calc_edges c.m_tPERIOD c.m_duty c.m_tOFFSET c.m_posedge).1
    m_tNEGEDGE := (calc_edges c.m_tPERIOD c.m_duty c.m_tOFFSET c.m_posedge).2 }

/-- Modelled from the spec: `no_clock::set_period_time` (only declared under
src/): snapshot the bookkeeping state, replace the period, recompute the
derived edge offsets. -/
def set_period_time (c : no_clock) (now tPERIOD : ℚ) : no_clock :=
  update_edges { mutator_snapshot c now with m_tPERIOD := tPERIOD }

/-- Modelled from the spec: `no_clock::set_frequency` (only declared under
src/) is `set_period_time` of the reciprocal frequency. -/
def set_frequency (c : no_clock) (now frequency : ℚ) : no_clock :=
  set_period_time c now (1 / frequency)

/-- Modelled from the spec: `no_clock::set_offset_time` (only declared under
src/). -/
def set_offset_time (c : no_clock) (now tOFFSET : ℚ) : no_clock :=
  update_edges { mutator_snapshot c now with m_tOFFSET := tOFFSET }

/-- Modelled from the spec: `no_clock::set_duty_cycle` (only declared under
src/). -/
def set_duty_cycle (c : no_clock) (now duty : ℚ) : no_clock :=
  update_edges { mutator_snapshot c now with m_duty := duty }

/-- Modelled from the spec: `no_clock::set_sample_time` (only declared under
src/). -/
def set_sample_time (c : no_clock) (now tSAMPLE : ℚ) : no_clock :=
  { mutator_snapshot c now with m_tSAMPLE := tSAMPLE }

/-- Modelled from the spec: `no_clock::set_setedge_time` (only declared under
src/). -/
def set_setedge_time (c : no_clock) (now tSETEDGE : ℚ) : no_clock :=
  { mutator_snapshot c now with m_tSETEDGE := tSETEDGE }

end no_clock

/-- The global clock registry `no_clock::s_global` (no_clock.h lines 286-287),
modelled as an association list from clock names to clock instances. -/
abbrev GlobalMap := List (String × no_clock)

/-- Lookup in the registry by name (first match). -/
def global_find (reg : GlobalMap) (n : String) : Option no_clock :=
  match reg with
  | [] => none
  | e :: rest => if e.1 = n then some e.2 else global_find rest n

/-- Modelled from the spec: the parameterized `no_clock::global` accessor
(only declared under src/): if `n` is already registered the existing
instance is returned and the configuration arguments are ignored; otherwise a
new clock is constructed from the arguments, registered under `n`, and
returned.  The result pairs the updated registry with the returned clock. -/
def global (reg : GlobalMap) (n : String) (p : ClockParams) :
    GlobalMap × no_clock :=
  match global_find reg n with
  | some c => (reg, c)
  | none => ((n, mkClock n p) :: reg, mkClock n p)

/-- A well-formed clock state per the spec's ClockConfig invariants: positive
period, and each of the four landmark offsets within [0, period). -/
def wf (c : no_clock) : Prop :=
  0 < c.m_tPERIOD
  ∧ 0 ≤ c.m_tPOSEDGE ∧ c.m_tPOSEDGE < c.m_tPERIOD
  ∧ 0 ≤ c.m_tNEGEDGE ∧ c.m_tNEGEDGE < c.m_tPERIOD
  ∧ 0 ≤ c.m_tSAMPLE ∧ c.m_tSAMPLE < c.m_tPERIOD
  ∧ 0 ≤ c.m_tSETEDGE ∧ c.m_tSETEDGE < c.m_tPERIOD

instance (c : no_clock) : Decidable (wf c) := by
  unfold wf
  infer_instance

/-- The concrete clock of the spec's first scenario (CLK1 of the header
documentation): period 10, duty 0.5, offset 0, first edge positive, sample 1,
set-edge 5, zero temporal shift, fresh counters. -/
def sampleClock : no_clock :=
  { m_clock_name := "CLK1"
    m_tPERIOD := 10
    m_duty := 1 / 2
    m_tOFFSET := 0
    m_tPOSEDGE := 0
    m_tNEGEDGE := 5
    m_posedge := true
    m_tSAMPLE := 1
    m_tSETEDGE := 5
    m_frequency_set := 0
    m_freq_count := 0
    m_base_count := 0
    m_tSHIFT := 0 }

/-- A second concrete clock with a nonzero carried base count, used to
instantiate the cycle-count invariant. -/
def countedClock : no_clock :=
  { sampleClock with m_base_count := 3 }

/-- A first concrete parameter set for the registry. -/
def paramsA : ClockParams :=
  ⟨10, 1 / 2, 0, 1, 5, true⟩

/-- A second, different concrete parameter set for the registry. -/
def paramsB : ClockParams :=
  ⟨12, 3 / 10, 1, 3, 6, false⟩

/-! ### Arithmetic facts about the remainder and delay helpers -/

lemma cppTrunc_of_nonneg (q : ℚ) (hq : 0 ≤ q) : cppTrunc q = ⌊q⌋ := if_pos hq

lemma scTimeMod_eq_floor (x p : ℚ) (hx : 0 ≤ x) (hp : 0 < p) :
    scTimeMod x p = x - p * (⌊x / p⌋ : ℚ) := by
  unfold scTimeMod
  rw [cppTrunc_of_nonneg _ (div_nonneg hx hp.le)]

lemma scTimeMod_eq_fract (x p : ℚ) (hx : 0 ≤ x) (hp : 0 < p) :
    scTimeMod x p = p * Int.fract (x / p) := by
  rw [scTimeMod_eq_floor x p hx hp, Int.fract, mul_sub, mul_comm p (x / p),
    div_mul_cancel₀ x hp.ne']

lemma scTimeMod_nonneg (x p : ℚ) (hx : 0 ≤ x) (hp : 0 < p) : 0 ≤ scTimeMod x p := by
  rw [scTimeMod_eq_fract x p hx hp]
  exact mul_nonneg hp.le (Int.fract_nonneg _)

lemma scTimeMod_lt (x p : ℚ) (hx : 0 ≤ x) (hp : 0 < p) : scTimeMod x p < p := by
  rw [scTimeMod_eq_fract x p hx hp]
  calc p * Int.fract (x / p) < p * 1 :=
        mul_lt_mul_of_pos_left (Int.fract_lt_one _) hp
    _ = p := mul_one p

lemma delay_cases (now p o s : ℚ) :
    (scTimeMod (now + s) p = o → delay now p o s = 0)
    ∧ (scTimeMod (now + s) p < o → delay now p o s = o - scTimeMod (now + s) p)
    ∧ (o < scTimeMod (now + s) p →
        delay now p o s = p + o - scTimeMod (now + s) p) := by
  unfold delay
  refine ⟨fun h => by rw [if_pos h], fun h => ?_, fun h => ?_⟩
  · rw [if_neg (ne_of_lt h), if_pos h]
  · rw [if_neg h.ne', if_neg (not_lt.2 h.le)]

lemma delay_nonneg (now p o s : ℚ) (hp : 0 < p) (ho : 0 ≤ o)
    (hts : 0 ≤ now + s) : 0 ≤ delay now p o s := by
  have h0 := scTimeMod_nonneg (now + s) p hts hp
  have h1 := scTimeMod_lt (now + s) p hts hp
  unfold delay
  split_ifs with h h2 <;> linarith

lemma delay_lt_period (now p o s : ℚ) (hp : 0 < p) (hop : o < p)
    (hts : 0 ≤ now + s) : delay now p o s < p := by
  have h0 := scTimeMod_nonneg (now + s) p hts hp
  unfold delay
  split_ifs with h h2
  · exact hp
  · linarith
  · have h3 : o < scTimeMod (now + s) p :=
      lt_of_le_of_ne (not_lt.1 h2) (fun he => h he.symm)
    linarith

lemma delay_eq_zero_iff (now p o s : ℚ) (hp : 0 < p) (ho : 0 ≤ o)
    (hts : 0 ≤ now + s) :
    delay now p o s = 0 ↔ scTimeMod (now + s) p = o := by
  have h0 := scTimeMod_nonneg (now + s) p hts hp
  have h1 := scTimeMod_lt (now + s) p hts hp
  unfold delay
  split_ifs with h h2
  · simp [h]
  · constructor
    · intro he
      linarith
    · intro he
      exact absurd he h
  · constructor
    · intro he
      linarith
    · intro he
      exact absurd he h

/-! ### Claim theorems -/

/-- C1: for every period p > 0, landmark offset o in [0, p), temporal shift s,
and current simulated time t with t + s ≥ 0, `delay` returns exactly zero when
the remainder r = (t + s) mod p equals o, returns o − r when r < o, and
p + o − r otherwise; consequently the result always lies in [0, p) and is zero
exactly when the shifted time is on the landmark. -/
theorem delay_spec (t s o p : ℚ) (hp : 0 < p) (ho : 0 ≤ o) (hop : o < p)
    (hts : 0 ≤ t + s) :
    (scTimeMod (t + s) p = o → delay t p o s = 0)
    ∧ (scTimeMod (t + s) p < o → delay t p o s = o - scTimeMod (t + s) p)
    ∧ (o < scTimeMod (t + s) p → delay t p o s = p + o - scTimeMod (t + s) p)
    ∧ 0 ≤ delay t p o s ∧ delay t p o s < p
    ∧ (delay t p o s = 0 ↔ scTimeMod (t + s) p = o) :=
  ⟨(delay_cases t p o s).1, (delay_cases t p o s).2.1, (delay_cases t p o s).2.2,
    delay_nonneg t p o s hp ho hts, delay_lt_period t p o s hp hop hts,
    delay_eq_zero_iff t p o s hp ho hts⟩

/-- Witness for `delay_spec` at t = 42, s = 0, o = 3, p = 10 (the worked
example of the source documentation). -/
theorem delay_spec_witness :
    (0 : ℚ) < 10 ∧ (0 : ℚ) ≤ 3 ∧ (3 : ℚ) < 10 ∧ (0 : ℚ) ≤ 42 + 0
    ∧ ((scTimeMod (42 + 0) 10 = 3 → delay 42 10 3 0 = 0)
      ∧ (scTimeMod (42 + 0) 10 < 3 → delay 42 10 3 0 = 3 - scTimeMod (42 + 0) 10)
      ∧ (3 < scTimeMod (42 + 0) 10 →
          delay 42 10 3 0 = 10 + 3 - scTimeMod (42 + 0) 10)
      ∧ 0 ≤ delay 42 10 3 0 ∧ delay 42 10 3 0 < 10
      ∧ (delay 42 10 3 0 = 0 ↔ scTimeMod (42 + 0) 10 = 3)) :=
  ⟨by norm_num, by norm_num, by norm_num, by norm_num,
    delay_spec 42 0 3 10 (by norm_num) (by norm_num) (by norm_num) (by norm_num)⟩

/-- C4 counterexample: at x = −3 and p = 10 the source's remainder (an `int()`
truncation toward zero) computes −3, while x − p·⌊x/p⌋ = 7; the result is
negative, so the "regardless of the sign of x" part of the claim fails. -/
theorem scTimeMod_neg_counterexample :
    scTimeMod (-3) 10 = -3
    ∧ ((-3 : ℚ) - 10 * ((⌊(-3 : ℚ) / 10⌋ : ℤ) : ℚ)) = 7
    ∧ ¬ (0 ≤ scTimeMod (-3) 10) := by
  have h : scTimeMod (-3) 10 = -3 := by norm_num [scTimeMod, cppTrunc]
  refine ⟨h, by norm_num, ?_⟩
  rw [h]
  norm_num

/-- C4 (amended): for every x ≥ 0 — every value an `sc_time` can actually
hold — and every period p > 0, the remainder equals x − p·⌊x/p⌋ and lies in
[0, p); for negative x the source's truncation toward zero would instead yield
a value in (−p, 0]. -/
theorem scTimeMod_floor_spec (x p : ℚ) (hx : 0 ≤ x) (hp : 0 < p) :
    scTimeMod x p = x - p * (⌊x / p⌋ : ℚ)
    ∧ 0 ≤ scTimeMod x p ∧ scTimeMod x p < p :=
  ⟨scTimeMod_eq_floor x p hx hp, scTimeMod_nonneg x p hx hp,
    scTimeMod_lt x p hx hp⟩

/-- Witness for `scTimeMod_floor_spec` at x = 42, p = 10. -/
theorem scTimeMod_floor_spec_witness :
    (0 : ℚ) ≤ 42 ∧ (0 : ℚ) < 10
    ∧ (scTimeMod 42 10 = 42 - 10 * ((⌊(42 : ℚ) / 10⌋ : ℤ) : ℚ)
      ∧ 0 ≤ scTimeMod 42 10 ∧ scTimeMod 42 10 < 10) :=
  ⟨by norm_num, by norm_num, scTimeMod_floor_spec 42 10 (by norm_num) (by norm_num)⟩

/-- C2: in every clock state with a positive period and with the shifted
current time not earlier than the last frequency change, `cycles()` equals the
carried base count `m_base_count` plus
⌊(now + temporalShift − m_frequency_set) / period⌋.  The equation is proved
for every state, so it holds in particular in every state reachable through
the configuration mutators — changing the period never retroactively rescales
the already-carried base count. -/
theorem cycles_invariant (c : no_clock) (now : ℚ) (hp : 0 < c.m_tPERIOD)
    (h : c.m_frequency_set ≤ now + c.m_tSHIFT) :
    c.cycles now = (c.m_base_count : ℤ)
      + ⌊(now + c.m_tSHIFT - c.m_frequency_set) / c.m_tPERIOD⌋ := by
  unfold no_clock.cycles clocks
  rw [cppTrunc_of_nonneg _ (div_nonneg (by linarith) hp.le)]

/-- Witness for `cycles_invariant` on a clock with carried base count 3,
period 10, at time 25. -/
theorem cycles_invariant_witness :
    0 < countedClock.m_tPERIOD
    ∧ countedClock.m_frequency_set ≤ 25 + countedClock.m_tSHIFT
    ∧ countedClock.cycles 25 = (countedClock.m_base_count : ℤ)
      + ⌊(25 + countedClock.m_tSHIFT - countedClock.m_frequency_set)
          / countedClock.m_tPERIOD⌋ :=
  ⟨by norm_num [countedClock, sampleClock],
    by norm_num [countedClock, sampleClock],
    cycles_invariant countedClock 25 (by norm_num [countedClock, sampleClock])
      (by norm_num [countedClock, sampleClock])⟩

/-- C3 (code bug): `at_setedge_time` tests `until_sample(0)`, not
`until_setedge(0)` (no_clock.h line 457).  On the documented CLK1
configuration (period 10, sample offset 1, set-edge offset 5) at time 1 the
function returns true although `until_setedge(0)` is 4, so the claimed
equivalence `at_setedge_time() = (until_setedge(0) == 0)` fails. -/
theorem at_setedge_time_bug :
    sampleClock.at_setedge_time 1 = true
    ∧ sampleClock.until_setedge 1 0 = 4
    ∧ ¬ (sampleClock.at_setedge_time 1 = true ↔ sampleClock.until_setedge 1 0 = 0) := by
  have h1 : sampleClock.at_setedge_time 1 = true := by
    norm_num [no_clock.at_setedge_time, no_clock.until_sample, delay, scTimeMod,
      cppTrunc, sampleClock]
  have h2 : sampleClock.until_setedge 1 0 = 4 := by
    norm_num [no_clock.until_setedge, delay, scTimeMod, cppTrunc, sampleClock]
  refine ⟨h1, h2, fun hiff => ?_⟩
  have := hiff.1 h1
  rw [h2] at this
  norm_num at this

/-- C7: `sc_core_time_diff(a, b)` returns a − b when a ≥ b; when a < b it
emits a warning-level diagnostic and returns SC_ZERO_TIME (default policy,
`INVERT_NEGATIVE` undefined); the returned duration is never negative. -/
theorem sc_core_time_diff_spec (a b : ℚ) :
    (b ≤ a → sc_core_time_diff a b = (a - b, none))
    ∧ (a < b → sc_core_time_diff a b = (0, some ⟨ScSeverity.warning, "time_diff",
        "Negative time calculation returning SC_ZERO_TIME"⟩))
    ∧ 0 ≤ (sc_core_time_diff a b).1 := by
  unfold sc_core_time_diff
  refine ⟨fun h => if_pos h, fun h => if_neg (not_le.2 h), ?_⟩
  split_ifs with h
  · exact sub_nonneg.2 h
  · exact le_refl 0

/-- Witness for `sc_core_time_diff_spec` at (5, 3) and (3, 5). -/
theorem sc_core_time_diff_spec_witness :
    sc_core_time_diff 5 3 = (5 - 3, none)
    ∧ sc_core_time_diff 3 5 = (0, some ⟨ScSeverity.warning, "time_diff",
        "Negative time calculation returning SC_ZERO_TIME"⟩) :=
  ⟨(sc_core_time_diff_spec 5 3).1 (by norm_num),
    (sc_core_time_diff_spec 3 5).2.1 (by norm_num)⟩

/-- C8: for every boolean value and every clock state, `write` signals an
error report (id "/no_clock", a usage error) and returns the clock state
completely unchanged — no field is mutated. -/
theorem write_spec (c : no_clock) (v : Bool) :
    (c.write v).1 = c ∧ (c.write v).2.severity = ScSeverity.error
    ∧ (c.write v).2.id = "/no_clock" :=
  ⟨rfl, rfl, rfl⟩

lemma next_formula (d p : ℚ) (n : ℕ) (hp : 0 < p) (hd : 0 ≤ d) :
    0 < ((n : ℚ) + (if d = 0 then 1 else 0)) * p + d
    ∧ (d ≠ 0 → ((n : ℚ) + (if d = 0 then 1 else 0)) * p + d = (n : ℚ) * p + d)
    ∧ (d = 0 →
        ((n : ℚ) + (if d = 0 then 1 else 0)) * p + d = ((n : ℚ) * p + d) + p) := by
  have hn : (0 : ℚ) ≤ (n : ℚ) := Nat.cast_nonneg n
  by_cases h : d = 0
  · subst h
    rw [if_pos rfl]
    refine ⟨by nlinarith, fun hne => absurd rfl hne, fun _ => by ring⟩
  · rw [if_neg h]
    have hd0 : 0 < d := lt_of_le_of_ne hd (Ne.symm h)
    exact ⟨by nlinarith, fun _ => by ring, fun he => absurd he h⟩

/-- C5: for every cycle argument n and every well-formed clock state, each
`next_*` query returns a strictly positive duration; it equals the
corresponding `until_*(n)` value when the raw delay is nonzero, and equals
`until_*(n)` plus one additional full period when the raw delay is zero (for
`next_anyedge` the raw delay is that of the edge selected by `read()`). -/
theorem next_spec (c : no_clock) (now : ℚ) (n : ℕ) (hw : wf c)
    (hts : 0 ≤ now + c.m_tSHIFT) :
    (0 < c.next_posedge now n ∧ 0 < c.next_negedge now n
      ∧ 0 < c.next_sample now n ∧ 0 < c.next_setedge now n
      ∧ 0 < c.next_anyedge now n)
    ∧ (delay now c.m_tPERIOD c.m_tPOSEDGE c.m_tSHIFT ≠ 0 →
        c.next_posedge now n = c.until_posedge now n)
    ∧ (delay now c.m_tPERIOD c.m_tPOSEDGE c.m_tSHIFT = 0 →
        c.next_posedge now n = c.until_posedge now n + c.m_tPERIOD)
    ∧ (delay now c.m_tPERIOD c.m_tNEGEDGE c.m_tSHIFT ≠ 0 →
        c.next_negedge now n = c.until_negedge now n)
    ∧ (delay now c.m_tPERIOD c.m_tNEGEDGE c.m_tSHIFT = 0 →
        c.next_negedge now n = c.until_negedge now n + c.m_tPERIOD)
    ∧ (delay now c.m_tPERIOD c.m_tSAMPLE c.m_tSHIFT ≠ 0 →
        c.next_sample now n = c.until_sample now n)
    ∧ (delay now c.m_tPERIOD c.m_tSAMPLE c.m_tSHIFT = 0 →
        c.next_sample now n = c.until_sample now n + c.m_tPERIOD)
    ∧ (delay now c.m_tPERIOD c.m_tSETEDGE c.m_tSHIFT ≠ 0 →
        c.next_setedge now n = c.until_setedge now n)
    ∧ (delay now c.m_tPERIOD c.m_tSETEDGE c.m_tSHIFT = 0 →
        c.next_setedge now n = c.until_setedge now n + c.m_tPERIOD)
    ∧ ((if c.read now then delay now c.m_tPERIOD c.m_tNEGEDGE c.m_tSHIFT
          else delay now c.m_tPERIOD c.m_tPOSEDGE c.m_tSHIFT) ≠ 0 →
        c.next_anyedge now n = c.until_anyedge now n)
    ∧ ((if c.read now then delay now c.m_tPERIOD c.m_tNEGEDGE c.m_tSHIFT
          else delay now c.m_tPERIOD c.m_tPOSEDGE c.m_tSHIFT) = 0 →
        c.next_anyedge now n = c.until_anyedge now n + c.m_tPERIOD) := by
  obtain ⟨hp, hpos0, hposp, hneg0, hnegp, hsam0, hsamp, hset0, hsetp⟩ := hw
  have hdP : 0 ≤ delay now c.m_tPERIOD c.m_tPOSEDGE c.m_tSHIFT :=
    delay_nonneg now c.m_tPERIOD c.m_tPOSEDGE c.m_tSHIFT hp hpos0 hts
  have hdN : 0 ≤ delay now c.m_tPERIOD c.m_tNEGEDGE c.m_tSHIFT :=
    delay_nonneg now c.m_tPERIOD c.m_tNEGEDGE c.m_tSHIFT hp hneg0 hts
  have hdS : 0 ≤ delay now c.m_tPERIOD c.m_tSAMPLE c.m_tSHIFT :=
    delay_nonneg now c.m_tPERIOD c.m_tSAMPLE c.m_tSHIFT hp hsam0 hts
  have hdE : 0 ≤ delay now c.m_tPERIOD c.m_tSETEDGE c.m_tSHIFT :=
    delay_nonneg now c.m_tPERIOD c.m_tSETEDGE c.m_tSHIFT hp hset0 hts
  have FP := next_formula (delay now c.m_tPERIOD c.m_tPOSEDGE c.m_tSHIFT)
    c.m_tPERIOD n hp hdP
  have FN := next_formula (delay now c.m_tPERIOD c.m_tNEGEDGE c.m_tSHIFT)
    c.m_tPERIOD n hp hdN
  have FS := next_formula (delay now c.m_tPERIOD c.m_tSAMPLE c.m_tSHIFT)
    c.m_tPERIOD n hp hdS
  have FE := next_formula (delay now c.m_tPERIOD c.m_tSETEDGE c.m_tSHIFT)
    c.m_tPERIOD n hp hdE
  have FP0 := next_formula (delay now c.m_tPERIOD c.m_tPOSEDGE c.m_tSHIFT)
    c.m_tPERIOD 0 hp hdP
  have FN0 := next_formula (delay now c.m_tPERIOD c.m_tNEGEDGE c.m_tSHIFT)
    c.m_tPERIOD 0 hp hdN
  have hnp : (0 : ℚ) ≤ (n : ℚ) * c.m_tPERIOD :=
    mul_nonneg (Nat.cast_nonneg n) hp.le
  have hP0 : 0 < c.next_posedge now 0 := FP0.1
  have hN0 : 0 < c.next_negedge now 0 := FN0.1
  refine ⟨⟨FP.1, FN.1, FS.1, FE.1, ?_⟩, FP.2.1, FP.2.2, FN.2.1, FN.2.2,
    FS.2.1, FS.2.2, FE.2.1, FE.2.2, ?_, ?_⟩
  · by_cases hr : c.read now = true
    · simp only [no_clock.next_anyedge, hr, if_true]
      linarith
    · rw [Bool.not_eq_true] at hr
      simp only [no_clock.next_anyedge, hr, Bool.false_eq_true, if_false]
      linarith
  · intro h
    by_cases hr : c.read now = true
    · rw [if_pos hr] at h
      have e : c.next_negedge now 0 = c.until_negedge now 0 := FN0.2.1 h
      simp only [no_clock.next_anyedge, no_clock.until_anyedge, hr, if_true]
      rw [e]
    · rw [Bool.not_eq_true] at hr
      rw [if_neg (by simp [hr])] at h
      have e : c.next_posedge now 0 = c.until_posedge now 0 := FP0.2.1 h
      simp only [no_clock.next_anyedge, no_clock.until_anyedge, hr,
        Bool.false_eq_true, if_false]
      rw [e]
  · intro h
    by_cases hr : c.read now = true
    · rw [if_pos hr] at h
      have e : c.next_negedge now 0 = c.until_negedge now 0 + c.m_tPERIOD :=
        FN0.2.2 h
      simp only [no_clock.next_anyedge, no_clock.until_anyedge, hr, if_true]
      rw [e]
      ring
    · rw [Bool.not_eq_true] at hr
      rw [if_neg (by simp [hr])] at h
      have e : c.next_posedge now 0 = c.until_posedge now 0 + c.m_tPERIOD :=
        FP0.2.2 h
      simp only [no_clock.next_anyedge, no_clock.until_anyedge, hr,
        Bool.false_eq_true, if_false]
      rw [e]
      ring

/-- Witness for `next_spec` on the CLK1 configuration at time 0 with n = 0
(raw posedge delay is zero there, so `next_posedge` returns one full period). -/
theorem next_spec_witness :
    wf sampleClock ∧ (0 : ℚ) ≤ 0 + sampleClock.m_tSHIFT
    ∧ ((0 < sampleClock.next_posedge 0 0 ∧ 0 < sampleClock.next_negedge 0 0
      ∧ 0 < sampleClock.next_sample 0 0 ∧ 0 < sampleClock.next_setedge 0 0
      ∧ 0 < sampleClock.next_anyedge 0 0)
    ∧ (delay 0 sampleClock.m_tPERIOD sampleClock.m_tPOSEDGE sampleClock.m_tSHIFT ≠ 0 →
        sampleClock.next_posedge 0 0 = sampleClock.until_posedge 0 0)
    ∧ (delay 0 sampleClock.m_tPERIOD sampleClock.m_tPOSEDGE sampleClock.m_tSHIFT = 0 →
        sampleClock.next_posedge 0 0 = sampleClock.until_posedge 0 0 + sampleClock.m_tPERIOD)
    ∧ (delay 0 sampleClock.m_tPERIOD sampleClock.m_tNEGEDGE sampleClock.m_tSHIFT ≠ 0 →
        sampleClock.next_negedge 0 0 = sampleClock.until_negedge 0 0)
    ∧ (delay 0 sampleClock.m_tPERIOD sampleClock.m_tNEGEDGE sampleClock.m_tSHIFT = 0 →
        sampleClock.next_negedge 0 0 = sampleClock.until_negedge 0 0 + sampleClock.m_tPERIOD)
    ∧ (delay 0 sampleClock.m_tPERIOD sampleClock.m_tSAMPLE sampleClock.m_tSHIFT ≠ 0 →
        sampleClock.next_sample 0 0 = sampleClock.until_sample 0 0)
    ∧ (delay 0 sampleClock.m_tPERIOD sampleClock.m_tSAMPLE sampleClock.m_tSHIFT = 0 →
        sampleClock.next_sample 0 0 = sampleClock.until_sample 0 0 + sampleClock.m_tPERIOD)
    ∧ (delay 0 sampleClock.m_tPERIOD sampleClock.m_tSETEDGE sampleClock.m_tSHIFT ≠ 0 →
        sampleClock.next_setedge 0 0 = sampleClock.until_setedge 0 0)
    ∧ (delay 0 sampleClock.m_tPERIOD sampleClock.m_tSETEDGE sampleClock.m_tSHIFT = 0 →
        sampleClock.next_setedge 0 0 = sampleClock.until_setedge 0 0 + sampleClock.m_tPERIOD)
    ∧ ((if sampleClock.read 0 then
          delay 0 sampleClock.m_tPERIOD sampleClock.m_tNEGEDGE sampleClock.m_tSHIFT
        else delay 0 sampleClock.m_tPERIOD sampleClock.m_tPOSEDGE sampleClock.m_tSHIFT) ≠ 0 →
        sampleClock.next_anyedge 0 0 = sampleClock.until_anyedge 0 0)
    ∧ ((if sampleClock.read 0 then
          delay 0 sampleClock.m_tPERIOD sampleClock.m_tNEGEDGE sampleClock.m_tSHIFT
        else delay 0 sampleClock.m_tPERIOD sampleClock.m_tPOSEDGE sampleClock.m_tSHIFT) = 0 →
        sampleClock.next_anyedge 0 0 = sampleClock.until_anyedge 0 0 + sampleClock.m_tPERIOD)) :=
  ⟨by norm_num [wf, sampleClock], by norm_num [sampleClock],
    next_spec sampleClock 0 0 (by norm_num [wf, sampleClock])
      (by norm_num [sampleClock])⟩

/-- C6 counterexample: on the CLK1 state, whose frequency-change count is 0,
`set_time_shift` — the one configuration mutator defined under src/
(no_clock.h line 304) — leaves the frequency-change count at 0, so the claim
that every mutator increments it by exactly 1 fails. -/
theorem set_time_shift_no_bookkeeping :
    ¬ ((sampleClock.set_time_shift 3).m_freq_count
        = sampleClock.m_freq_count + 1) := by
  norm_num [no_clock.set_time_shift, sampleClock]

/-- C6 (amended): each of the six spec-modelled configuration mutators
(set_frequency, set_period_time, set_offset_time, set_duty_cycle,
set_sample_time, set_setedge_time) records the elapsed cycle count at the
moment of the call into the base count, stamps the change time into
`m_frequency_set`, and increments `m_freq_count` by exactly one, before
applying the new parameter; `set_time_shift`, as defined in the source
(no_clock.h line 304), only assigns the new temporal shift and leaves every
other field — in particular the three bookkeeping fields — unchanged. -/
theorem mutators_bookkeeping (c : no_clock) (now f q : ℚ) :
    ((c.set_frequency now f).m_base_count = (c.cycles now).toNat
      ∧ (c.set_frequency now f).m_frequency_set = now
      ∧ (c.set_frequency now f).m_freq_count = c.m_freq_count + 1
      ∧ (c.set_frequency now f).m_tPERIOD = 1 / f)
    ∧ ((c.set_period_time now q).m_base_count = (c.cycles now).toNat
      ∧ (c.set_period_time now q).m_frequency_set = now
      ∧ (c.set_period_time now q).m_freq_count = c.m_freq_count + 1
      ∧ (c.set_period_time now q).m_tPERIOD = q)
    ∧ ((c.set_offset_time now q).m_base_count = (c.cycles now).toNat
      ∧ (c.set_offset_time now q).m_frequency_set = now
      ∧ (c.set_offset_time now q).m_freq_count = c.m_freq_count + 1
      ∧ (c.set_offset_time now q).m_tOFFSET = q)
    ∧ ((c.set_duty_cycle now q).m_base_count = (c.cycles now).toNat
      ∧ (c.set_duty_cycle now q).m_frequency_set = now
      ∧ (c.set_duty_cycle now q).m_freq_count = c.m_freq_count + 1
      ∧ (c.set_duty_cycle now q).m_duty = q)
    ∧ ((c.set_sample_time now q).m_base_count = (c.cycles now).toNat
      ∧ (c.set_sample_time now q).m_frequency_set = now
      ∧ (c.set_sample_time now q).m_freq_count = c.m_freq_count + 1
      ∧ (c.set_sample_time now q).m_tSAMPLE = q)
    ∧ ((c.set_setedge_time now q).m_base_count = (c.cycles now).toNat
      ∧ (c.set_setedge_time now q).m_frequency_set = now
      ∧ (c.set_setedge_time now q).m_freq_count = c.m_freq_count + 1
      ∧ (c.set_setedge_time now q).m_tSETEDGE = q)
    ∧ ((c.set_time_shift q).m_tSHIFT = q
      ∧ (c.set_time_shift q).m_base_count = c.m_base_count
      ∧ (c.set_time_shift q).m_frequency_set = c.m_frequency_set
      ∧ (c.set_time_shift q).m_freq_count = c.m_freq_count
      ∧ (c.set_time_shift q).m_tPERIOD = c.m_tPERIOD
      ∧ (c.set_time_shift q).m_duty = c.m_duty
      ∧ (c.set_time_shift q).m_tOFFSET = c.m_tOFFSET
      ∧ (c.set_time_shift q).m_tPOSEDGE = c.m_tPOSEDGE
      ∧ (c.set_time_shift q).m_tNEGEDGE = c.m_tNEGEDGE
      ∧ (c.set_time_shift q).m_posedge = c.m_posedge
      ∧ (c.set_time_shift q).m_tSAMPLE = c.m_tSAMPLE
      ∧ (c.set_time_shift q).m_tSETEDGE = c.m_tSETEDGE) := by
  and_intros <;> rfl

/-- C9: if a name is already registered, the parameterized `global` accessor
returns the existing instance and leaves the registry unchanged, ignoring the
configuration arguments; consequently a second call with different parameters
returns exactly the instance created by the first call — first registration
wins. -/
theorem global_first_registration_wins (reg : GlobalMap) (n : String)
    (p1 p2 : ClockParams) :
    (∀ c, global_find reg n = some c → global reg n p1 = (reg, c))
    ∧ global (global reg n p1).1 n p2
      = ((global reg n p1).1, (global reg n p1).2) := by
  constructor
  · intro c h
    unfold global
    rw [h]
  · cases h : global_find reg n with
    | some c => simp [global, h]
    | none => simp [global, h, global_find]

/-- Witness for `global_first_registration_wins`: registering "CLK" in the
empty registry with one parameter set and calling again with a different
one. -/
theorem global_first_registration_wins_witness :
    global (global [] "CLK" paramsA).1 "CLK" paramsB
      = ((global [] "CLK" paramsA).1, (global [] "CLK" paramsA).2) :=
  (global_first_registration_wins [] "CLK" paramsA paramsB).2

/-- C10: at the exact falling-edge instant (until_negedge(0) = 0 while
until_posedge(0) > 0) `read()` returns true — the signal reads high at its own
falling edge — whereas at the exact rising-edge instant (until_posedge(0) = 0)
it returns false: the tie-break at the two edges is asymmetric. -/
theorem read_edge_tiebreak (c : no_clock) (nowF nowR : ℚ) (hw : wf c)
    (hF1 : c.until_negedge nowF 0 = 0) (hF2 : 0 < c.until_posedge nowF 0)
    (hR : c.until_posedge nowR 0 = 0) (hRs : 0 ≤ nowR + c.m_tSHIFT) :
    c.read nowF = true ∧ c.read nowR = false := by
  obtain ⟨hp, hpos0, hposp, hneg0, hnegp, _, _, _, _⟩ := hw
  constructor
  · simp only [no_clock.read, decide_eq_true_eq]
    rw [hF1]
    exact hF2
  · have hn : 0 ≤ c.until_negedge nowR 0 := by
      have h := delay_nonneg nowR c.m_tPERIOD c.m_tNEGEDGE c.m_tSHIFT hp hneg0 hRs
      unfold no_clock.until_negedge
      simpa using h
    apply decide_eq_false
    rw [hR]
    exact not_lt.2 hn

/-- Witness for `read_edge_tiebreak` on the CLK1 configuration: the falling
edge is at time 5 and the rising edge at time 0. -/
theorem read_edge_tiebreak_witness :
    wf sampleClock
    ∧ sampleClock.until_negedge 5 0 = 0 ∧ 0 < sampleClock.until_posedge 5 0
    ∧ sampleClock.until_posedge 0 0 = 0 ∧ (0 : ℚ) ≤ 0 + sampleClock.m_tSHIFT
    ∧ (sampleClock.read 5 = true ∧ sampleClock.read 0 = false) :=
  have hwf : wf sampleClock := by norm_num [wf, sampleClock]
  have h1 : sampleClock.until_negedge 5 0 = 0 := by
    norm_num [no_clock.until_negedge, delay, scTimeMod, cppTrunc, sampleClock]
  have h2 : 0 < sampleClock.until_posedge 5 0 := by
    norm_num [no_clock.until_posedge, delay, scTimeMod, cppTrunc, sampleClock]
  have h3 : sampleClock.until_posedge 0 0 = 0 := by
    norm_num [no_clock.until_posedge, delay, scTimeMod, cppTrunc, sampleClock]
  have h4 : (0 : ℚ) ≤ 0 + sampleClock.m_tSHIFT := by norm_num [sampleClock]
  ⟨hwf, h1, h2, h3, h4, read_edge_tiebreak sampleClock 5 0 hwf h1 h2 h3 h4⟩

end NoClock
